import Mathlib

/-!
Verification development for the nxopentse automation library.

The Python modules under `src/nxopentse` are shallowly embedded below:
pure helpers become Lean functions, host-side (NXOpen) state is an explicit
environment record, side effects (listing-window output, solve submissions,
node creation) are an explicit effect trace, and Python exceptions are
modelled with `Except`.
-/

namespace Nxopentse

/-- Python exceptions raised by the embedded code. -/
inductive PyErr where
  /-- `TypeError`, e.g. `isinstance()` called with a non-type second argument. -/
  | typeError
  /-- `IndexError`, raised by out-of-range sequence subscription. -/
  | indexError
  /-- `AttributeError`, e.g. attribute access on `None`. -/
  | attributeError
  /-- `ValueError(msg)`. -/
  | valueError (msg : String)
  /-- Plain `Exception(msg)`. -/
  | exception (msg : String)
  /-- A failure raised inside the NXOpen host itself. -/
  | hostError
  deriving Repr, DecidableEq

/-- The Python objects that reach the document-type guards: `None`, a class
object such as `NXOpen.CAE.SimPart`, or an instance of a host document class
(with the names of its base classes). -/
inductive PyObj where
  | pyNone
  | classObj (name : String)
  | instanceOf (className : String) (bases : List String)
  deriving Repr, DecidableEq

/-- Whether a `PyObj` is a class object (a valid second argument to `isinstance`). -/
def PyObj.isclass : PyObj → Bool
  | .classObj _ => true
  | _ => false

/-- Python's `isinstance(obj, classinfo)`: when `classinfo` is a class, returns
whether `obj` is an instance of it (directly or through a base class); when
`classinfo` is not a type — for example when the two arguments are swapped and
an instance is passed second — CPython raises
`TypeError: isinstance() arg 2 must be a type`. -/
def pyIsinstance (obj : PyObj) (classinfo : PyObj) : Except PyErr Bool :=
  match classinfo with
  | .classObj c =>
    match obj with
    | .instanceOf cn bases => .ok (cn = c ∨ c ∈ bases : Bool)
    | _ => .ok false
  | _ => .error .typeError

/-- Lowercase one character (the embedded code only ever lowercases ASCII names). -/
def pyLowerChar (c : Char) : Char :=
  if 'A' ≤ c ∧ c ≤ 'Z' then Char.ofNat (c.toNat + 32) else c

/-- Python `str.lower`. -/
def pyLower (s : String) : String := ⟨s.data.map pyLowerChar⟩

/-- Auxiliary for `pySplit`: accumulate the current field (reversed). -/
def pySplitAux (sep : Char) : List Char → List Char → List (List Char)
  | [], cur => [cur.reverse]
  | c :: cs, cur =>
    if c = sep then cur.reverse :: pySplitAux sep cs []
    else pySplitAux sep cs (c :: cur)

/-- Python `str.split(sep)` with a one-character separator:
`"".split(",") == [""]`, empty fields preserved. -/
def pySplit (s : String) (sep : Char) : List String :=
  (pySplitAux sep s.data []).map (fun l => ⟨l⟩)

/-- The characters Python's `str.strip()` removes. -/
def pyIsSpace (c : Char) : Bool :=
  c = ' ' ∨ c = '\t' ∨ c = '\n' ∨ c = '\r' ∨ c = '\x0b' ∨ c = '\x0c'

/-- Python `str.strip()`: drop leading and trailing whitespace. -/
def pyStrip (s : String) : String :=
  ⟨((s.data.dropWhile pyIsSpace).reverse.dropWhile pyIsSpace).reverse⟩

/-- Digits accepted by Python's `int` constructor, one `Option` step:
parse a non-empty run of decimal digits, underscores allowed between digits. -/
def pyIntDigits : List Char → Option Nat
  | [] => none
  | [c] => if c.isDigit then some (c.toNat - '0'.toNat) else none
  | c :: c2 :: cs =>
    if c.isDigit then
      let rest := if c2 = '_' then (if cs = [] then none else pyIntDigits cs)
                  else pyIntDigits (c2 :: cs)
      match rest with
      | none => none
      | some n =>
        let k := (c2 :: cs).countP (fun x => x ≠ '_')
        some ((c.toNat - '0'.toNat) * 10 ^ k + n)
    else none

/-- Python `int(s)` on a string: strip whitespace, optional sign, decimal
digits (single underscores allowed between digits); `none` models the
`ValueError` raised on any other input. -/
def pyInt? (s : String) : Option Int :=
  let t := (pyStrip s).data
  match t with
  | '-' :: rest => (pyIntDigits rest).map (fun n => -(n : Int))
  | '+' :: rest => (pyIntDigits rest).map (fun n => (n : Int))
  | _ => (pyIntDigits t).map (fun n => (n : Int))

instance {ε α : Type} [DecidableEq ε] [DecidableEq α] : DecidableEq (Except ε α) := fun x y =>
  match x, y with
  | .ok a, .ok b => decidable_of_iff (a = b) (by simp)
  | .error e, .error f => decidable_of_iff (e = f) (by simp)
  | .ok _, .error _ => isFalse (by simp)
  | .error _, .ok _ => isFalse (by simp)

/-- Python's `list == None` comparison: a list is never equal to `None`,
so this is constantly `false` (the slip relied upon in `solve_solution`). -/
def pyListEqNone (_l : List α) : Bool := false

/-- Python sequence subscription `l[i]` with negative-index support:
`l[-1]` is the last element; out of range raises `IndexError` (here `none`). -/
def pyIndex (l : List α) (i : Int) : Option α :=
  if 0 ≤ i then l.get? i.toNat
  else if i + l.length ≥ 0 then l.get? (i + l.length).toNat
  else none

/-- The observable side effects of the embedded functions. -/
inductive Eff where
  /-- `the_lw.WriteFullline(s)`: one line written to the listing window. -/
  | log (s : String)
  /-- `the_uf_session.Ui.SetStatus(s)`. -/
  | setStatus (s : String)
  /-- `the_session.Post.ReloadTemplates()`. -/
  | reloadTemplates
  /-- `sim_solve_manager.SolveChainOfSolutions(chain, solveOption, setupCheckOption, solveMode)`. -/
  | solveChain (chain : List String) (solveOption setupCheckOption solveMode : String)
  /-- `base_fem_part.Points.CreatePoint(Point3d(x, y, z))` (coordinates carried opaquely). -/
  | createPoint (x y z : Rat)
  /-- `node_create_builder.Commit()` after setting label and coordinates. -/
  | commitNode (label : Int) (x y z : Rat)
  deriving Repr, DecidableEq

/-! ## `tools/general.py` — path normalization (`create_full_path`)

`create_full_path` builds on CPython's `posixpath` primitives `splitext`,
`dirname` and `join`, which are embedded here over `String`. -/

/-- Python `str.rfind(c)` on a character list: highest index of `c`, `-1` if absent. -/
def rfindIdx (c : Char) : List Char → Int
  | [] => -1
  | x :: xs =>
    let r := rfindIdx c xs
    if 0 ≤ r then r + 1 else if x = c then 0 else -1

/-- `posixpath.splitext(p)`: split off the extension at the last dot of the
last path component, treating the component's leading dots as part of the
root (so `".unv"` has no extension). -/
def splitext (p : String) : String × String :=
  let cs := p.data
  let sepIndex := rfindIdx '/' cs
  let dotIndex := rfindIdx '.' cs
  if sepIndex < dotIndex then
    if (List.range cs.length).any
        (fun j => decide (sepIndex < (j : Int)) && decide ((j : Int) < dotIndex)
          && decide (cs.getD j '.' ≠ '.')) then
      (⟨cs.take dotIndex.toNat⟩, ⟨cs.drop dotIndex.toNat⟩)
    else (p, "")
  else (p, "")

/-- `posixpath.dirname(p)`: everything up to the last `/`, with trailing
slashes stripped unless the head is all slashes. -/
def dirname (p : String) : String :=
  let cs := p.data
  let i := (rfindIdx '/' cs + 1).toNat
  let head := cs.take i
  if head ≠ [] ∧ ¬ head.all (· = '/') then ⟨(head.reverse.dropWhile (· = '/')).reverse⟩
  else ⟨head⟩

/-- `posixpath.join(a, b)` for one component: `b` absolute wins; otherwise
insert a separator unless `a` is empty or already ends with one. -/
def joinPath (a b : String) : String :=
  if b.data.head? = some '/' then b
  else if a = "" ∨ a.data.getLast? = some '/' then a ++ b
  else a ++ "/" ++ b

/-- The saved host document the session's `Parts.BaseWork` resolves to. -/
structure BasePartData where
  fullPath : String
  deriving Repr, DecidableEq

/-- Ambient session state seen by `tools/general.py`. -/
structure ToolsEnv where
  /-- `the_session.Parts.BaseWork`; `none` models an undefined base part. -/
  baseWork : Option BasePartData
  deriving Repr, DecidableEq

/-- `tools/general.py`, `create_full_path(file_name, extension=".unv")`:
append `extension` when `file_name` has none; when it has no directory
component, prefix the directory of the open document (raising `ValueError`
after a log line if there is no base part). -/
def create_full_path (env : ToolsEnv) (file_name : String) (extension : String) :
    Except PyErr String × List Eff :=
  let file_name := if (splitext file_name).2 = "" then file_name ++ extension else file_name
  let unv_file_path := dirname file_name
  if unv_file_path = "" then
    match env.baseWork with
    | none =>
      (.error (.valueError "No full path was given and the BasePart is not defined. The latter could be because the part was never saved. Please save the part and try again."),
       [.log "No full path was given and the BasePart is not defined. The latter could be because the part was never saved. Please save the part and try again."])
    | some base_part => (.ok (joinPath (dirname base_part.fullPath) file_name), [])
  else (.ok file_name, [])

/-! ## `tools/__init__.py` — the tools package aggregator (C1) -/

/-- The functions defined in `tools/general.py` (top-level `def`s of the file). -/
def general_defs : List String :=
  ["create_full_path", "indentation", "print_component_tree", "print_part_tree",
   "create_string_attribute"]

/-- The functions defined in `tools/vector_arithmetic.py` (top-level `def`s of the file). -/
def vector_arithmetic_defs : List String :=
  ["cross_product_vector3d", "dot_product_vector3d"]

/-- Modelled from the spec: `tools/excel.py` is not present in the source
tree; §4.3 of the specification describes it as exposing exactly one
function, `hello()`. -/
def excel_defs : List String := ["hello"]

/-- The re-export list of `tools/__init__.py`, in source order:
each `from .module import name` pair. -/
def tools_reexports : List (String × String) :=
  [("excel", "hello"),
   ("general", "create_full_path"), ("general", "indentation"),
   ("general", "print_part_tree"), ("general", "print_component_tree"),
   ("general", "create_string_attribute"), ("general", "show_only"),
   ("general", "move_object_to_layer"), ("general", "color_object"),
   ("vector_arithmetic", "cross_product_vector3d"),
   ("vector_arithmetic", "dot_product_vector3d"),
   ("vector_arithmetic", "get_angle_between_vectors")]

/-- The names actually defined by each tools submodule. -/
def tools_module_defs (m : String) : List String :=
  if m = "excel" then excel_defs
  else if m = "general" then general_defs
  else if m = "vector_arithmetic" then vector_arithmetic_defs
  else []

/-- `import nxopentse.tools` succeeds iff every re-exported name is defined
in the module it is imported from (a missing name raises `ImportError`). -/
def tools_import_ok : Bool :=
  tools_reexports.all (fun mn => (tools_module_defs mn.1).contains mn.2)

/-! ## `cad/code.py` — `bisector_multiple_planes` (C6)

Host features are an abstract type `α`; `datumPlane` models the
`.DatumPlane` accessor, `createBisector` models
`create_bisector_datum_plane` committing a new datum-plane feature. -/

/-- `cad/code.py`, `bisector_multiple_planes(planes)`: build one bisector
plane per consecutive pair, then insert the `i`-th bisector at position
`2*i + 1` of a copy of the input list. -/
def bisector_multiple_planes {α β : Type} (createBisector : β → β → α)
    (datumPlane : α → β) (d : α) (planes : List α) : List α :=
  let new_planes := (List.range (planes.length - 1)).map
    (fun i => createBisector (datumPlane (planes.getD i d)) (datumPlane (planes.getD (i + 1) d)))
  (List.range new_planes.length).foldl
    (fun acc i => acc.insertIdx (2 * i + 1) (new_planes.getD i d)) planes

/-- The interleaving the specification describes: originals in input order,
with the bisector of each consecutive pair between them. -/
def interleaved_with_bisectors {α β : Type} (createBisector : β → β → α)
    (datumPlane : α → β) : List α → List α
  | [] => []
  | a :: rest =>
    match rest with
    | [] => [a]
    | b :: _ =>
      a :: createBisector (datumPlane a) (datumPlane b) ::
        interleaved_with_bisectors createBisector datumPlane rest

/-! ## Host state for the CAE modules

Solutions, loadcases, iterations and result types live in the host document;
only the data the embedded functions inspect is carried. -/

/-- A result type of one iteration (`Name` and `UserName`). -/
structure ResultTypeData where
  name : String
  userName : String
  deriving Repr, DecidableEq

/-- One iteration of a loadcase, with its result types. -/
structure IterationData where
  resultTypes : List ResultTypeData
  deriving Repr, DecidableEq

/-- One loadcase (subcase) of a solution result, with its iterations. -/
structure LoadcaseData where
  iterations : List IterationData
  deriving Repr, DecidableEq

/-- A solution of the simulation document: its name, whether its result can
be loaded (`CreateReferenceResult` succeeds), and the loadcases of that result. -/
structure SolutionData where
  name : String
  loadable : Bool
  loadcases : List LoadcaseData
  deriving Repr, DecidableEq

/-- Ambient session state seen by the postprocessing functions. -/
structure SimEnv where
  /-- `the_session.Parts.BaseWork`. -/
  baseWork : PyObj
  /-- `sim_part.Simulation.Solutions`. -/
  solutions : List SolutionData
  deriving Repr, DecidableEq

/-- A loaded `SolutionResult` (only its loadcases are inspected). -/
structure SolutionResultData where
  loadcases : List LoadcaseData
  deriving Repr, DecidableEq

/-- `isinstance(obj, C)` with the class as second argument (the correct
order): total, raising nothing —
`pyIsinstance obj (.classObj c) = .ok (pyIsinstanceBool obj c)`. -/
def pyIsinstanceBool (obj : PyObj) (c : String) : Bool :=
  match obj with
  | .instanceOf cn bases => cn = c ∨ c ∈ bases
  | _ => false

/-! ## `cae/postprocessing.py` — `PostInput`, `get_solution`, `load_results`, `check_post_input` -/

/-- `cae/postprocessing.py`, class `PostInput`. -/
structure PostInput where
  _solution : String
  _subcase : Int
  _iteration : Int
  _resultType : String
  _identifier : String
  deriving Repr, DecidableEq

/-- `PostInput.__repr__`. -/
def postInputRepr (p : PostInput) : String :=
  "Solution: " ++ p._solution ++ " Subcase: " ++ toString p._subcase ++
    " Iteration: " ++ toString p._iteration ++ " ResultType: " ++ p._resultType ++
    " Identifier: " ++ p._identifier

/-- `cae/preprocessing.py`, `get_solution(solution_name)`: first solution
matching the name case-insensitively, `None` when absent; logs and returns
`None` when not started from a sim file. -/
def get_solution (env : SimEnv) (solution_name : String) : Option SolutionData × List Eff :=
  if ¬ pyIsinstanceBool env.baseWork "SimPart" then
    (none, [.log "get_solution needs to start from a .sim file. Exiting"])
  else
    let sim_solution := env.solutions.filter (fun s => pyLower s.name == pyLower solution_name)
    match sim_solution with
    | [] => (none, [])
    | s :: _ => (some s, [])

/-- The per-input loop of `load_results`. The `FindObject` call in the `try`
raises `NameError` (the source reads the undefined variable `simPart`), which
the bare `except` swallows, so `CreateReferenceResult` always runs: it raises
a host error when the solution's result cannot be loaded. `sim_solution.Find`
on `None` (solution not found) raises `AttributeError`. -/
def load_results_loop (env : SimEnv) : List PostInput → Except PyErr (List SolutionResultData) × List Eff
  | [] => (.ok [], [])
  | inp :: rest =>
    let gs := get_solution env inp._solution
    match gs.1 with
    | none => (.error .attributeError, gs.2)
    | some s =>
      let eff := gs.2 ++ [Eff.setStatus ("Loading results for " ++ inp._solution ++ " SubCase " ++
        toString inp._subcase ++ " Iteration " ++ toString inp._iteration ++
        " ResultType " ++ inp._resultType)]
      if s.loadable then
        match load_results_loop env rest with
        | (.ok rs, lg2) => (.ok (⟨s.loadcases⟩ :: rs), eff ++ lg2)
        | (.error e, lg2) => (.error e, eff ++ lg2)
      else (.error .hostError, eff)

/-- `cae/postprocessing.py`, `load_results(post_inputs)` at its default
`sim_part=None`: guard that the work part is a sim file, then load each
input's solution result. -/
def load_results (env : SimEnv) (post_inputs : List PostInput) :
    Except PyErr (List SolutionResultData) × List Eff :=
  if ¬ pyIsinstanceBool env.baseWork "SimPart" then
    (.error (.valueError "map_group_to_postgroup needs to be called on a .sim file!"), [])
  else load_results_loop env post_inputs

/-- `cae/postprocessing.py`, `check_post_input(post_inputs)` (lines 202-259):
the first statement of the body is a bare `return`, so the function returns
`None` immediately; the entire validation block below it (embedded separately
as `check_post_input_dead_validation`) is unreachable. -/
def check_post_input (_env : SimEnv) (_post_inputs : List PostInput) :
    Except PyErr Unit × List Eff :=
  (.ok (), [])

/-- The unreachable validation block of `check_post_input` (lines 213-259),
embedded as written: solution exists, result loads, subcase index in range,
iteration index in range, result-type name exists — logging and raising at
the first violation. -/
def check_post_input_dead_validation (env : SimEnv) : List PostInput → Except PyErr Unit × List Eff
  | [] => (.ok (), [])
  | inp :: rest =>
    let gs := get_solution env inp._solution
    match gs.1 with
    | none =>
      (.error (.valueError ("Solution with name " ++ inp._solution ++ " not found")),
       gs.2 ++ [.log ("Error in input " ++ postInputRepr inp),
                .log ("Solution with name " ++ inp._solution ++ " not found.")])
    | some _ =>
      match load_results env [inp] with
      | (.error e, lg) =>
        (.error e, gs.2 ++ lg ++ [.log ("Error in input " ++ postInputRepr inp),
          .log ("No result for Solution with name " ++ inp._solution)])
      | (.ok results, lg) =>
        match pyIndex results 0 with
        | none => (.error .indexError, gs.2 ++ lg)
        | some sr =>
          match pyIndex sr.loadcases (inp._subcase - 1) with
          | none =>
            (.error .indexError, gs.2 ++ lg ++ [.log ("Error in input " ++ postInputRepr inp),
              .log ("SubCase with number " ++ toString inp._subcase ++
                " not found in solution with name " ++ inp._solution)])
          | some lc =>
            match pyIndex lc.iterations (inp._iteration - 1) with
            | none =>
              (.error .indexError, gs.2 ++ lg ++ [.log ("Error in input " ++ postInputRepr inp),
                .log ("Iteration number " ++ toString inp._iteration ++
                  "not found in SubCase with number " ++ toString inp._subcase ++
                  " in solution with name " ++ inp._solution)])
            | some it =>
              let base_result_type := it.resultTypes.filter
                (fun rt => pyStrip (pyLower rt.name) == pyStrip (pyLower inp._resultType))
              if base_result_type.length = 0 then
                (.error (.valueError ("ResultType " ++ inp._resultType ++
                    "not found in iteration number " ++ toString inp._iteration ++
                    " in SubCase with number " ++ toString inp._subcase ++
                    " in solution with name " ++ inp._solution)),
                 gs.2 ++ lg ++ [.log ("Error in input " ++ postInputRepr inp),
                   .log ("ResultType " ++ inp._resultType ++ "not found in iteration number " ++
                     toString inp._iteration ++ " in SubCase with number " ++
                     toString inp._subcase ++ " in solution with name " ++ inp._solution)] ++
                   it.resultTypes.map (fun rt => Eff.log rt.userName))
              else
                let r := check_post_input_dead_validation env rest
                (r.1, gs.2 ++ lg ++ r.2)

/-! ## `cae/results_display.py` — `ScreenShot`, `sort_screenshots`,
`check_screenshots`, `read_screenshot_definitions` -/

/-- `cae/results_display.py`, class `ScreenShot(PostInput)`. -/
structure ScreenShot extends PostInput where
  _file_name : String
  _annotation_text : String
  _template_name : String
  _group_name : String
  _component_name : String
  _camera_name : String
  deriving Repr, DecidableEq

/-- The sort key of `sort_screenshots`: the Python tuple
`(x._solution, x._subcase, x._iteration, x._resultType)` under tuple
lexicographic comparison — strings lexicographically by code point (their
character lists under the `List`-lexicographic order), integers numerically. -/
def screenshot_key (s : ScreenShot) : Lex (List Char × Lex (Int × Lex (Int × List Char))) :=
  toLex (s._solution.data, toLex (s._subcase, toLex (s._iteration, s._resultType.data)))

/-- Comparison of two screenshots by their sort key. -/
def screenshot_le (a b : ScreenShot) : Prop := screenshot_key a ≤ screenshot_key b

instance : DecidableRel screenshot_le :=
  fun a b => inferInstanceAs (Decidable (screenshot_key a ≤ screenshot_key b))

instance : IsTotal ScreenShot screenshot_le :=
  ⟨fun a b => le_total (screenshot_key a) (screenshot_key b)⟩

instance : IsTrans ScreenShot screenshot_le :=
  ⟨fun _ _ _ h h2 => le_trans h h2⟩

/-- `cae/results_display.py`, `sort_screenshots(screenshots)`:
`sorted(screenshots, key=lambda x: (x._solution, x._subcase, x._iteration,
x._resultType))`. Python's `sorted` is the stable ascending sort by the key;
insertion sort with the non-strict key comparison is that stable sort. -/
def sort_screenshots (screenshots : List ScreenShot) : List ScreenShot :=
  List.insertionSort screenshot_le screenshots

/-- Ambient state seen by `check_screenshots`: the sim document's groups and
cameras (by name), the known post-processing templates, and the attribute
names of the host's `NXOpen.CAE.Result.Component` class. -/
structure DisplayEnv where
  sim : SimEnv
  groups : List String
  templates : List String
  cameras : List String
  componentNames : List String
  deriving Repr, DecidableEq

/-- One iteration of the `check_screenshots` loop (lines 168-210): group
lookup (absent fatal, ambiguous a warning), template search (host raises when
absent; the log line prints the *component* name, as in the source), the
component-name check, and the camera lookup (absent fatal, ambiguous a
warning). The component check's `try` body is a list comprehension over the
known component names filtering on the lowercased *group* name: it cannot
raise and its result is unused, so the `except` branch that would log the
enumerated valid names and raise is unreachable. -/
def check_one_screenshot (env : DisplayEnv) (s : ScreenShot) : Except PyErr Unit × List Eff :=
  let cae_group := env.groups.filter (fun g => pyLower g == pyLower s._group_name)
  if cae_group.length = 0 then
    (.error (.valueError ("Group with name " ++ s._group_name ++ " not found")),
     [.log ("Error in input " ++ s._file_name),
      .log ("Group with name " ++ s._group_name ++ " not found")])
  else
    let groupWarn : List Eff :=
      if cae_group.length ≠ 1 then
        [.log ("WARNING " ++ s._file_name),
         .log ("FOUND MULTIPLE GROUPS WITH THE NAME " ++ s._group_name)]
      else []
    if ¬ env.templates.contains s._template_name then
      (.error (.valueError ("Template with name " ++ s._template_name ++ " not found")),
       groupWarn ++ [.log ("Error in input " ++ s._file_name),
         .log ("Template with name " ++ s._component_name ++ " could not be found.")])
    else
      let _component := env.componentNames.filter (fun x => pyLower x == pyLower s._group_name)
      let camera := env.cameras.filter (fun c => pyLower c == pyLower s._camera_name)
      if camera.length = 0 then
        (.error (.valueError ("Camera with name " ++ s._camera_name ++ " not found")),
         groupWarn ++ [.log ("Error in input " ++ s._file_name),
           .log ("Camera with name " ++ s._camera_name ++ " not found")])
      else
        let cameraWarn : List Eff :=
          if camera.length ≠ 1 then
            [.log ("WARNING " ++ s._file_name),
             .log ("FOUND MULTIPLE CAMERAS WITH THE NAME " ++ s._camera_name)]
          else []
        (.ok (), groupWarn ++ cameraWarn)

/-- The `for screenshot in screenshots` loop of `check_screenshots`. -/
def check_screenshots_loop (env : DisplayEnv) : List ScreenShot → Except PyErr Unit × List Eff
  | [] => (.ok (), [])
  | s :: rest =>
    match check_one_screenshot env s with
    | (.error e, lg) => (.error e, lg)
    | (.ok _, lg) =>
      let r := check_screenshots_loop env rest
      (r.1, lg ++ r.2)

/-- `check_screenshots` after its document guard: `check_post_input` on the
screenshots (which returns immediately), `ReloadTemplates`, then the loop. -/
def check_screenshots_after_guard (env : DisplayEnv) (screenshots : List ScreenShot) :
    Except PyErr Unit × List Eff :=
  match check_post_input env.sim (screenshots.map (fun s => s.toPostInput)) with
  | (.error e, lg) => (.error e, lg)
  | (.ok _, lg) =>
    let r := check_screenshots_loop env screenshots
    (r.1, lg ++ [Eff.reloadTemplates] ++ r.2)

/-- `cae/results_display.py`, `check_screenshots(screenshots, sim_part=None)`
(lines 121-210): with `sim_part` defaulted, requires the work part to be a
sim file (raising `ValueError` otherwise), then validates every screenshot. -/
def check_screenshots (env : DisplayEnv) (screenshots : List ScreenShot)
    (sim_part : Option Unit) : Except PyErr Unit × List Eff :=
  match sim_part with
  | none =>
    if ¬ pyIsinstanceBool env.sim.baseWork "SimPart" then
      (.error (.valueError "check_screenshots needs to be called on a .sim file!"), [])
    else check_screenshots_after_guard env screenshots
  | some _ => check_screenshots_after_guard env screenshots

/-- The `Item i: value` lines logged for a line with the wrong field count. -/
def itemLogs (values : List String) : List Eff :=
  (List.range values.length).map (fun i => Eff.log ("Item " ++ toString i ++ ": " ++ values.getD i ""))

/-- The line loop of `read_screenshot_definitions` (lines 257-284), carrying
the accumulated screenshots: a line that is empty or a single character
(`# empty line has length 1...`) is skipped; a line whose comma-split is not
exactly 10 fields logs the complaint and every parsed field, then raises; a
10-field line is stripped field-by-field, `int()` applied to fields 6 and 7
(raising `ValueError` on a non-integer). At the end, an empty accumulator is
returned as `None`. -/
def read_screenshot_definitions_loop :
    List String → List ScreenShot → Except PyErr (Option (List ScreenShot)) × List Eff
  | [], acc => if acc.length = 0 then (.ok none, []) else (.ok (some acc), [])
  | line :: rest, acc =>
    if line = "" ∨ line.length = 1 then read_screenshot_definitions_loop rest acc
    else
      let values := pySplit line ','
      if values.length ≠ 10 then
        (.error (.exception "There should be 10 items in each input line, separated by commas. Please check the input above and make sure not to use commas in the names."),
         Eff.log "There should be 10 items in each input line, separated by commas. Please check the input and make sure not to use commas in the names."
           :: itemLogs values)
      else
        match pyInt? (pyStrip (values.getD 6 "")) with
        | none => (.error (.valueError ("invalid literal for int() with base 10: " ++
            pyStrip (values.getD 6 ""))), [])
        | some sc =>
          match pyInt? (pyStrip (values.getD 7 "")) with
          | none => (.error (.valueError ("invalid literal for int() with base 10: " ++
              pyStrip (values.getD 7 ""))), [])
          | some it =>
            read_screenshot_definitions_loop rest (acc ++ [{
              _solution := pyStrip (values.getD 5 ""), _subcase := sc, _iteration := it,
              _resultType := pyStrip (values.getD 8 ""), _identifier := "",
              _file_name := pyStrip (values.getD 0 ""),
              _annotation_text := pyStrip (values.getD 1 ""),
              _template_name := pyStrip (values.getD 2 ""),
              _group_name := pyStrip (values.getD 3 ""),
              _component_name := pyStrip (values.getD 9 ""),
              _camera_name := pyStrip (values.getD 4 "") }])

/-- `cae/results_display.py`, `read_screenshot_definitions(file_path)`
(lines 213-284), over the lines returned by `readlines()` (file access is
abstracted to that list; each line keeps its trailing newline except,
possibly, the last). -/
def read_screenshot_definitions (csv_lines : List String) :
    Except PyErr (Option (List ScreenShot)) × List Eff :=
  read_screenshot_definitions_loop csv_lines []

/-! ## `cae/preprocessing.py` — `create_node` -/

/-- The created finite-element node handle. -/
structure FENode where
  label : Int
  deriving Repr, DecidableEq

/-- Ambient session state seen by `create_node`. -/
structure FemEnv where
  /-- `the_session.Parts.BaseWork`. -/
  baseWork : PyObj
  deriving Repr, DecidableEq

/-- `cae/preprocessing.py`, `create_node(label, x, y, z)` (lines 101-151).
The guard is `if not isinstance(NXOpen.CAE.BaseFemPart, base_part)`: the
*class* is passed as the object and the work part as the classinfo, so
`isinstance` raises `TypeError` whenever the work part is an instance (or
`None`) rather than a type. On the (intended) non-FEM branch it logs and
returns `None`; otherwise it creates a point and commits the node. -/
def create_node (env : FemEnv) (label : Int) (x_coordinate y_coordinate z_coordinate : Rat) :
    Except PyErr (Option FENode) × List Eff :=
  match pyIsinstance (.classObj "BaseFemPart") env.baseWork with
  | .error e => (.error e, [])
  | .ok b =>
    if ¬ b then
      (.ok none, [.log "create_node needs to start from a .fem or .afem file. Exiting"])
    else
      (.ok (some ⟨label⟩),
       [.createPoint x_coordinate y_coordinate z_coordinate,
        .commitNode label x_coordinate y_coordinate z_coordinate])

/-! ## `cae/solving.py` — `solve_solution` -/

/-- Ambient session state seen by `solve_solution`. -/
structure SolveEnv where
  /-- `the_session.Parts.BaseWork`. -/
  baseWork : PyObj
  /-- The names of `sim_part.Simulation.Solutions`. -/
  solutions : List String
  /-- `sim_part.FullPath`. -/
  fullPath : String
  deriving Repr, DecidableEq

/-- `solve_solution` from line 30 on (after the document guard): log
`"Solving <name>"`, filter the solutions by case-insensitive name, test the
match list with `== None` (constantly false for a Python list, so the
diagnostic branch is dead), take element `[0]` (raising `IndexError` when no
solution matched), then submit the one-solution chain to
`SolveChainOfSolutions`, log `"Solved solution <name>"`, and submit the very
same chain with the same options a second time. -/
def solve_solution_from_sim (env : SolveEnv) (solution_name : String) :
    Except PyErr Unit × List Eff :=
  let logs0 := [Eff.log ("Solving " ++ solution_name)]
  let sim_solution := env.solutions.filter (fun nm => pyLower nm == pyLower solution_name)
  if pyListEqNone sim_solution then
    (.ok (), logs0 ++ [.log ("Solution with name " ++ solution_name ++
      " could not be found in " ++ env.fullPath)])
  else
    match sim_solution with
    | [] => (.error .indexError, logs0)
    | s :: _ =>
      (.ok (), logs0 ++
        [.solveChain [s] "Solve" "DoNotCheck" "Foreground",
         .log ("Solved solution " ++ solution_name),
         .solveChain [s] "Solve" "DoNotCheck" "Foreground"])

/-- `cae/solving.py`, `solve_solution(solution_name)` (lines 17-50). The
guard is `if not isinstance(NXOpen.CAE.SimPart, base_part)`: the class and
the instance are swapped, so `isinstance` raises `TypeError` whenever the
work part is an instance (or `None`) rather than a type. -/
def solve_solution (env : SolveEnv) (solution_name : String) : Except PyErr Unit × List Eff :=
  match pyIsinstance (.classObj "SimPart") env.baseWork with
  | .error e => (.error e, [])
  | .ok b =>
    if ¬ b then (.ok (), [.log "solve_solution needs to start from a .sim file. Exiting"])
    else solve_solution_from_sim env solution_name

/-- Whether an effect is a `SolveChainOfSolutions` submission. -/
def Eff.isSolveChain : Eff → Bool
  | .solveChain _ _ _ _ => true
  | _ => false

/-- A line the `read_screenshot_definitions` loop processes without raising:
blank by the loop's own test (empty or a single character), or with exactly
10 comma-separated fields whose subcase and iteration fields parse as
integers. -/
def cleanLineB (l : String) : Bool :=
  l == "" || l.length == 1 ||
    ((pySplit l ',').length == 10 &&
     (pyInt? (pyStrip ((pySplit l ',').getD 6 ""))).isSome &&
     (pyInt? (pyStrip ((pySplit l ',').getD 7 ""))).isSome)

/-! ## Concrete fixtures used by the theorems below -/

/-- A session whose open document is `/home/user/model.sim`. -/
def envTools : ToolsEnv := ⟨some ⟨"/home/user/model.sim"⟩⟩

/-- A sim document with one solution `Sol1` whose result loads and has one
subcase, one iteration and one result type. -/
def envSim : SimEnv :=
  ⟨.instanceOf "SimPart" ["BasePart"],
   [⟨"Sol1", true, [⟨[⟨[⟨"Stress - Element-Nodal", "Stress"⟩]⟩]⟩]⟩]⟩

/-- A `PostInput` naming a solution that does not exist in `envSim`. -/
def postMissing : PostInput := ⟨"Missing", 1, 1, "Stress", ""⟩

/-- Display-session state: one group `G`, one template `T`, one camera `C`,
and three known result-component names. -/
def envDisplay : DisplayEnv :=
  ⟨envSim, ["G"], ["T"], ["C"], ["Scalar", "Vonmises", "MaximumPrincipal"]⟩

/-- A screenshot whose group, template and camera resolve in `envDisplay`
but whose component name matches no known result component. -/
def scrBadComponent : ScreenShot :=
  { _solution := "Sol1", _subcase := 1, _iteration := 1,
    _resultType := "Stress", _identifier := "", _file_name := "pic1", _annotation_text := "",
    _template_name := "T", _group_name := "G", _component_name := "NotAComponent",
    _camera_name := "C" }

/-- Screenshot `("S1", 1, 1, "Stress")` of the sort example. -/
def scrS1a : ScreenShot :=
  { _solution := "S1", _subcase := 1, _iteration := 1, _resultType := "Stress",
    _identifier := "", _file_name := "", _annotation_text := "", _template_name := "",
    _group_name := "", _component_name := "", _camera_name := "" }

/-- Screenshot `("S1", 2, 1, "Stress")` of the sort example. -/
def scrS1b : ScreenShot := { scrS1a with _subcase := 2 }

/-- Screenshot `("S2", 1, 1, "Stress")` of the sort example. -/
def scrS2 : ScreenShot := { scrS1a with _solution := "S2" }

/-- A sim document (instance of `SimPart`) holding one solution `Sol1`. -/
def envSolve : SolveEnv := ⟨.instanceOf "SimPart" ["BasePart"], ["Sol1"], "/x/model.sim"⟩

/-- A plain CAD part document as the active work part. -/
def envFem : FemEnv := ⟨.instanceOf "Part" ["BasePart"]⟩

/-! ## Theorems -/

/-- C1: the claim says every name re-exported by `tools/__init__.py` resolves
to a function defined in the corresponding module, so that importing the
tools namespace succeeds. It does not: the aggregator re-exports
`get_angle_between_vectors` from the vector-arithmetic module, which defines
only `cross_product_vector3d` and `dot_product_vector3d` (and likewise
`show_only`, `move_object_to_layer`, `color_object` are re-exported but not
defined in `general.py`), so `import nxopentse.tools` raises `ImportError`. -/
theorem c1_tools_reexports_do_not_all_resolve :
    tools_import_ok = false ∧
    ("vector_arithmetic", "get_angle_between_vectors") ∈ tools_reexports ∧
    "get_angle_between_vectors" ∉ vector_arithmetic_defs ∧
    ("general", "show_only") ∈ tools_reexports ∧
    "show_only" ∉ general_defs := by
  decide

/-- C2: the claim says `check_post_input` performs its five pre-flight checks
in order and raises for the first violating input — in particular for a
`PostInput` naming a nonexistent solution. In fact the body begins with a
bare `return`, so it returns normally for *every* input, writing nothing;
the validation block below the `return` (embedded as
`check_post_input_dead_validation`) would have raised `ValueError` on the
nonexistent-solution input. -/
theorem c2_check_post_input_returns_for_missing_solution :
    (∀ (env : SimEnv) (inputs : List PostInput), check_post_input env inputs = (.ok (), [])) ∧
    check_post_input envSim [postMissing] = (.ok (), []) ∧
    check_post_input_dead_validation envSim [postMissing] =
      (.error (.valueError "Solution with name Missing not found"),
       [.log "Error in input Solution: Missing Subcase: 1 Iteration: 1 ResultType: Stress Identifier: ",
        .log "Solution with name Missing not found."]) := by
  refine ⟨fun env inputs => rfl, rfl, ?_⟩
  decide

/-- C3: the claim says a `ScreenShot` whose result-component identifier does
not match any known component name makes `check_screenshots` fail after
logging the enumerated valid names. In fact the component check is a list
comprehension that cannot raise (and filters on the lowercased *group* name);
its result is never inspected, so a screenshot whose other fields resolve
passes the whole validation with no error and no component-related log, no
matter what its component name is. -/
theorem c3_component_mismatch_not_detected (env : DisplayEnv) (s : ScreenShot)
    (hsim : pyIsinstanceBool env.sim.baseWork "SimPart" = true)
    (hgroup : (env.groups.filter (fun g => pyLower g == pyLower s._group_name)).length = 1)
    (htempl : s._template_name ∈ env.templates)
    (hcam : (env.cameras.filter (fun c => pyLower c == pyLower s._camera_name)).length = 1)
    (_hcomp : s._component_name ∉ env.componentNames) :
    check_screenshots env [s] none = (.ok (), [Eff.reloadTemplates]) := by
  simp [check_screenshots, check_screenshots_after_guard, check_post_input,
    check_screenshots_loop, check_one_screenshot, hsim, hgroup, htempl, hcam]

/-- C3 witness: the concrete screenshot `scrBadComponent` has a component
name matching none of `envDisplay`'s component names, yet `check_screenshots`
accepts it. -/
theorem c3_witness :
    ("NotAComponent" ∉ envDisplay.componentNames) ∧
    check_screenshots envDisplay [scrBadComponent] none = (.ok (), [Eff.reloadTemplates]) :=
  ⟨by decide,
   c3_component_mismatch_not_detected envDisplay scrBadComponent (by decide) (by decide)
     (by decide) (by decide) (by decide)⟩

/-- C4: the claim says `solve_solution`, called from a simulation document
with a name matching no solution, logs a diagnostic and returns without
raising, and solves the solution when exactly one matches. In fact the guard
`isinstance(NXOpen.CAE.SimPart, base_part)` has its arguments swapped and
raises `TypeError` for any work-part instance before anything is logged; and
even the post-guard body tests the filtered match list with `== None`
(constantly false for a list), so an empty match list reaches
`sim_solution[0]` and raises `IndexError` instead of logging and returning. -/
theorem c4_solve_solution_raises_on_missing_name :
    solve_solution envSolve "Missing" = (.error .typeError, []) ∧
    solve_solution_from_sim envSolve "Missing" =
      (.error .indexError, [.log "Solving Missing"]) ∧
    envSolve.solutions.filter (fun nm => pyLower nm == pyLower "Missing") = [] := by
  decide

/-- C5: the claim says `create_node`, invoked while the active work document
is not a finite-element (or FEM-assembly) document, logs a clear diagnostic
and returns without creating anything and without raising. In fact the guard
`isinstance(NXOpen.CAE.BaseFemPart, base_part)` has its arguments swapped, so
for every environment whose work part is an instance (or `None`) — i.e. every
real session, wrong document kind included — the call raises `TypeError`
with no log line and no side effect. -/
theorem c5_create_node_raises_instead_of_logging (env : FemEnv) (label : Int) (x y z : Rat)
    (h : env.baseWork.isclass = false) :
    create_node env label x y z = (.error .typeError, []) := by
  cases henv : env.baseWork <;>
    simp [PyObj.isclass, henv, create_node, pyIsinstance] at h ⊢

/-- C5 witness: with a plain CAD part as the work document, `create_node`
raises `TypeError` and logs nothing. -/
theorem c5_witness :
    envFem.baseWork.isclass = false ∧
    create_node envFem 1 0 0 0 = (.error .typeError, []) :=
  ⟨by decide, c5_create_node_raises_instead_of_logging envFem 1 0 0 0 (by decide)⟩

/-- Prefixing a list with `c` shifts every insertion position by one. -/
theorem foldl_insertIdx_cons {α : Type} (g : Nat → α) (p : Nat → Nat) (c : α) :
    ∀ (xs : List Nat) (t : List α),
      xs.foldl (fun acc i => acc.insertIdx (p i + 1) (g i)) (c :: t) =
        c :: xs.foldl (fun acc i => acc.insertIdx (p i) (g i)) t
  | [], _ => rfl
  | x :: xs, t => by
    simp only [List.foldl_cons, List.insertIdx_succ_cons]
    exact foldl_insertIdx_cons g p c xs _

/-- The interleaving of `N` planes with their `N−1` bisectors has `2N−1` elements. -/
theorem interleaved_length {α β : Type} (cb : β → β → α) (dp : α → β) :
    ∀ planes : List α,
      (interleaved_with_bisectors cb dp planes).length = 2 * planes.length - 1
  | [] => rfl
  | [_] => rfl
  | a :: b :: t => by
    have ih := interleaved_length cb dp (b :: t)
    simp only [interleaved_with_bisectors, List.length_cons] at ih ⊢
    omega

/-- `bisector_multiple_planes` computes exactly the original/bisector
interleaving, for every input list. -/
theorem bisector_eq_interleaved {α β : Type} (cb : β → β → α) (dp : α → β) (d : α) :
    ∀ planes : List α,
      bisector_multiple_planes cb dp d planes = interleaved_with_bisectors cb dp planes := by
  intro planes
  induction planes with
  | nil => rfl
  | cons a rest ih =>
    cases rest with
    | nil => rfl
    | cons b t =>
      have hmapfun : ((fun i => cb (dp ((a :: b :: t).getD i d)) (dp ((a :: b :: t).getD (i + 1) d))) ∘ Nat.succ)
          = fun i => cb (dp ((b :: t).getD i d)) (dp (t.getD i d)) := by
        funext i
        simp [Function.comp, List.getD_cons_succ]
      simp only [bisector_multiple_planes] at ih ⊢
      rw [show (b :: t).length - 1 = t.length by simp] at ih
      simp only [List.getD_cons_zero, List.getD_cons_succ] at ih
      rw [show (a :: b :: t).length - 1 = t.length + 1 by simp,
          List.range_succ_eq_map, List.map_cons, List.map_map, hmapfun]
      simp only [List.getD_cons_zero, List.getD_cons_succ]
      set newTail := (List.range t.length).map
        (fun i => cb (dp ((b :: t).getD i d)) (dp (t.getD i d))) with hnt
      rw [show (cb (dp a) (dp b) :: newTail).length = newTail.length + 1 by simp,
          List.range_succ_eq_map, List.foldl_cons, List.foldl_map]
      have hinit : List.insertIdx (2 * 0 + 1) ((cb (dp a) (dp b) :: newTail).getD 0 d) (a :: b :: t)
          = a :: cb (dp a) (dp b) :: b :: t := by
        simp
      rw [hinit]
      have hbody : (fun (acc : List α) (i : Nat) =>
            List.insertIdx (2 * Nat.succ i + 1) ((cb (dp a) (dp b) :: newTail).getD (Nat.succ i) d) acc)
          = fun acc i => List.insertIdx ((2 * i + 1 + 1) + 1) (newTail.getD i d) acc := by
        funext acc i
        rw [List.getD_cons_succ, show 2 * Nat.succ i + 1 = (2 * i + 1 + 1) + 1 from by omega]
      rw [hbody]
      rw [foldl_insertIdx_cons (fun i => newTail.getD i d) (fun i => 2 * i + 1 + 1) a]
      rw [foldl_insertIdx_cons (fun i => newTail.getD i d) (fun i => 2 * i + 1) (cb (dp a) (dp b))]
      rw [ih]
      simp [interleaved_with_bisectors]

/-- C6: for every ordered input list of N ≥ 2 datum-plane features,
`bisector_multiple_planes` returns the list of length 2N−1 interleaving the
originals, in input order, with the N−1 bisector planes of consecutive
pairs; e.g. `[A, B, C]` yields `[A, bisect(A,B), B, bisect(B,C), C]`. -/
theorem c6_bisector_multiple_planes_interleaves {α β : Type} (cb : β → β → α) (dp : α → β)
    (d : α) (planes : List α) (_h : 2 ≤ planes.length) :
    bisector_multiple_planes cb dp d planes = interleaved_with_bisectors cb dp planes ∧
    (bisector_multiple_planes cb dp d planes).length = 2 * planes.length - 1 ∧
    (∀ A B C : α, bisector_multiple_planes cb dp d [A, B, C] =
      [A, cb (dp A) (dp B), B, cb (dp B) (dp C), C]) := by
  refine ⟨bisector_eq_interleaved cb dp d planes, ?_, fun A B C => rfl⟩
  rw [bisector_eq_interleaved cb dp d planes, interleaved_length]

/-- C6 witness: on the three planes `[10, 20, 30]` with a concrete bisector
function, the interleaving `[10, bisect 10 20, 20, bisect 20 30, 30]` of
length five is returned. -/
theorem c6_witness :
    2 ≤ ([10, 20, 30] : List Nat).length ∧
    bisector_multiple_planes (fun a b => 100 * a + b) (fun (x : Nat) => x) 0 [10, 20, 30] =
      interleaved_with_bisectors (fun a b => 100 * a + b) (fun (x : Nat) => x) [10, 20, 30] ∧
    (bisector_multiple_planes (fun a b => 100 * a + b) (fun (x : Nat) => x) 0 [10, 20, 30]).length =
      2 * ([10, 20, 30] : List Nat).length - 1 ∧
    bisector_multiple_planes (fun a b => 100 * a + b) (fun (x : Nat) => x) 0 [10, 20, 30] =
      [10, 1020, 20, 2030, 30] :=
  ⟨by decide,
   (c6_bisector_multiple_planes_interleaves (fun a b => 100 * a + b) (fun (x : Nat) => x)
      0 [10, 20, 30] (by decide)).1,
   (c6_bisector_multiple_planes_interleaves (fun a b => 100 * a + b) (fun (x : Nat) => x)
      0 [10, 20, 30] (by decide)).2.1,
   by decide⟩

/-- C7: `sort_screenshots` returns a permutation of its input ordered
ascending by the tuple `(solution, subcase, iteration, resultType)`; in
particular `[("S2",1,1,"Stress"), ("S1",2,1,"Stress"), ("S1",1,1,"Stress")]`
is returned as `[("S1",1,1,"Stress"), ("S1",2,1,"Stress"), ("S2",1,1,"Stress")]`. -/
theorem c7_sort_screenshots_sorted_by_key :
    (∀ l : List ScreenShot,
      (sort_screenshots l).Perm l ∧ (sort_screenshots l).Sorted screenshot_le) ∧
    sort_screenshots [scrS2, scrS1b, scrS1a] = [scrS1a, scrS1b, scrS2] := by
  refine ⟨fun l => ⟨List.perm_insertionSort _ _, List.sorted_insertionSort _ _⟩, ?_⟩
  decide

/-- C10: whenever the post-guard body of `solve_solution` finds a matching
solution, it submits the same single-solution chain to
`SolveChainOfSolutions` twice with identical options (`Solve`, `DoNotCheck`,
`Foreground`) — once before and once after the `"Solved solution"` log — so
a successful run performs the foreground solve exactly two times. -/
theorem c10_solve_solution_double_solve (env : SolveEnv) (name s : String) (rest : List String)
    (h : env.solutions.filter (fun nm => pyLower nm == pyLower name) = s :: rest) :
    solve_solution_from_sim env name =
      (.ok (), [.log ("Solving " ++ name),
        .solveChain [s] "Solve" "DoNotCheck" "Foreground",
        .log ("Solved solution " ++ name),
        .solveChain [s] "Solve" "DoNotCheck" "Foreground"]) ∧
    ((solve_solution_from_sim env name).2.countP Eff.isSolveChain) = 2 := by
  simp [solve_solution_from_sim, pyListEqNone, h, List.countP, List.countP.go, Eff.isSolveChain]

/-- C10 witness: solving `sol1` in a document holding solution `Sol1`
submits the chain `[Sol1]` twice. -/
theorem c10_witness :
    envSolve.solutions.filter (fun nm => pyLower nm == pyLower "sol1") = ["Sol1"] ∧
    solve_solution_from_sim envSolve "sol1" =
      (.ok (), [.log "Solving sol1",
        .solveChain ["Sol1"] "Solve" "DoNotCheck" "Foreground",
        .log "Solved solution sol1",
        .solveChain ["Sol1"] "Solve" "DoNotCheck" "Foreground"]) :=
  ⟨by decide, (c10_solve_solution_double_solve envSolve "sol1" "Sol1" [] (by decide)).1⟩

/-- `pySplitAux` produces at most one field per character plus one. -/
theorem pySplitAux_length_le (sep : Char) :
    ∀ (cs cur : List Char), (pySplitAux sep cs cur).length ≤ cs.length + 1
  | [], _ => by simp [pySplitAux]
  | c :: cs, cur => by
    simp only [pySplitAux, List.length_cons]
    by_cases h : c = sep
    · rw [if_pos h]
      have := pySplitAux_length_le sep cs []
      simp only [List.length_cons]
      omega
    · rw [if_neg h]
      have := pySplitAux_length_le sep cs (c :: cur)
      omega

/-- A split has at most one more field than the string has characters. -/
theorem pySplit_length_le (s : String) (sep : Char) :
    (pySplit s sep).length ≤ s.length + 1 := by
  unfold pySplit
  rw [List.length_map]
  exact pySplitAux_length_le sep s.data []

/-- Lines processed cleanly by the `read_screenshot_definitions` loop only
grow the accumulator: the run on `pre ++ tail` continues as a run on `tail`. -/
theorem read_loop_clean_prefix :
    ∀ (pre tail : List String) (acc : List ScreenShot),
      (∀ l ∈ pre, cleanLineB l = true) →
      ∃ acc2, read_screenshot_definitions_loop (pre ++ tail) acc =
        read_screenshot_definitions_loop tail acc2
  | [], _, acc, _ => ⟨acc, rfl⟩
  | p :: ps, tail, acc, h => by
    have hp := h p (List.mem_cons_self p ps)
    have hps : ∀ l ∈ ps, cleanLineB l = true := fun l hl => h l (List.mem_cons_of_mem p hl)
    rw [List.cons_append]
    by_cases hskip : p = "" ∨ p.length = 1
    · rw [show read_screenshot_definitions_loop (p :: (ps ++ tail)) acc =
          read_screenshot_definitions_loop (ps ++ tail) acc from by
        simp only [read_screenshot_definitions_loop]
        rw [if_pos hskip]]
      exact read_loop_clean_prefix ps tail acc hps
    · have h1 : ¬ p = "" := fun hh => hskip (Or.inl hh)
      have h2 : ¬ p.length = 1 := fun hh => hskip (Or.inr hh)
      simp only [cleanLineB, h1, h2, Bool.or_eq_true, beq_iff_eq, Bool.and_eq_true,
        Option.isSome_iff_exists, false_or, or_false] at hp
      obtain ⟨⟨h10, sc, hsc⟩, it, hit⟩ := hp
      simp only [read_screenshot_definitions_loop]
      rw [if_neg hskip, if_neg (by simp [h10]), hsc, hit]
      exact read_loop_clean_prefix ps tail _ hps

/-- A line of length at least two whose comma-split is not 10 fields aborts
the loop with the descriptive error and the per-field logs, whatever the
accumulator holds. -/
theorem read_loop_bad_line (line : String) (rest : List String) (acc : List ScreenShot)
    (hne : line ≠ "") (hlen : line.length ≠ 1) (h10 : (pySplit line ',').length ≠ 10) :
    read_screenshot_definitions_loop (line :: rest) acc =
      (.error (.exception "There should be 10 items in each input line, separated by commas. Please check the input above and make sure not to use commas in the names."),
       Eff.log "There should be 10 items in each input line, separated by commas. Please check the input and make sure not to use commas in the names."
         :: itemLogs (pySplit line ',')) := by
  simp only [read_screenshot_definitions_loop]
  rw [if_neg (not_or.mpr ⟨hne, hlen⟩), if_pos h10]

/-- A single 10-field line with integer subcase and iteration fields parses
into the stripped `ScreenShot` with those integers. -/
theorem read_single_line_parses (line : String) (sc it : Int)
    (h10 : (pySplit line ',').length = 10)
    (h6 : pyInt? (pyStrip ((pySplit line ',').getD 6 "")) = some sc)
    (h7 : pyInt? (pyStrip ((pySplit line ',').getD 7 "")) = some it) :
    read_screenshot_definitions [line] =
      (.ok (some [⟨⟨pyStrip ((pySplit line ',').getD 5 ""), sc, it,
        pyStrip ((pySplit line ',').getD 8 ""), ""⟩,
        pyStrip ((pySplit line ',').getD 0 ""), pyStrip ((pySplit line ',').getD 1 ""),
        pyStrip ((pySplit line ',').getD 2 ""), pyStrip ((pySplit line ',').getD 3 ""),
        pyStrip ((pySplit line ',').getD 9 ""), pyStrip ((pySplit line ',').getD 4 "")⟩]), []) := by
  have hne : line ≠ "" := by
    intro h
    rw [h] at h10
    simp [pySplit, pySplitAux] at h10
  have hlen1 : line.length ≠ 1 := by
    intro h
    have hle := pySplit_length_le line ','
    rw [h, h10] at hle
    omega
  unfold read_screenshot_definitions
  simp only [read_screenshot_definitions_loop]
  rw [if_neg (not_or.mpr ⟨hne, hlen1⟩), if_neg (by simp [h10]), h6, h7]
  simp [read_screenshot_definitions_loop]

/-- C8 counterexample: the claim as stated fails on a file whose last line is
the single character `x` (no trailing newline): the line is non-empty and
splits into one field, not 10, yet `read_screenshot_definitions` skips it as
blank (`len(line) == 1` is treated as an empty line) and returns normally
instead of raising. -/
theorem c8_counterexample_one_char_line :
    ("x" : String) ≠ "" ∧ (pySplit "x" ',').length ≠ 10 ∧
    read_screenshot_definitions ["x"] = (.ok none, []) := by
  decide

/-- C8 (amended): `read_screenshot_definitions` aborts the entire parse with
the descriptive error — after logging every field parsed from the offending
line — whenever a line of length at least 2 does not split into exactly 10
comma-separated fields (lines that are empty or a single character are
skipped as blank); and every line with exactly 10 fields whose subcase and
iteration fields convert with `int()` parses into a `ScreenShot` carrying
those integers. -/
theorem c8_read_screenshot_definitions_strict :
    (∀ (pre : List String) (line : String) (rest : List String),
      (∀ l ∈ pre, cleanLineB l = true) → line ≠ "" → line.length ≠ 1 →
      (pySplit line ',').length ≠ 10 →
      read_screenshot_definitions (pre ++ line :: rest) =
        (.error (.exception "There should be 10 items in each input line, separated by commas. Please check the input above and make sure not to use commas in the names."),
         Eff.log "There should be 10 items in each input line, separated by commas. Please check the input and make sure not to use commas in the names."
           :: itemLogs (pySplit line ','))) ∧
    (∀ (line : String) (sc it : Int),
      (pySplit line ',').length = 10 →
      pyInt? (pyStrip ((pySplit line ',').getD 6 "")) = some sc →
      pyInt? (pyStrip ((pySplit line ',').getD 7 "")) = some it →
      read_screenshot_definitions [line] =
        (.ok (some [⟨⟨pyStrip ((pySplit line ',').getD 5 ""), sc, it,
          pyStrip ((pySplit line ',').getD 8 ""), ""⟩,
          pyStrip ((pySplit line ',').getD 0 ""), pyStrip ((pySplit line ',').getD 1 ""),
          pyStrip ((pySplit line ',').getD 2 ""), pyStrip ((pySplit line ',').getD 3 ""),
          pyStrip ((pySplit line ',').getD 9 ""), pyStrip ((pySplit line ',').getD 4 "")⟩]), [])) := by
  constructor
  · intro pre line rest hpre hne hlen h10
    unfold read_screenshot_definitions
    obtain ⟨acc2, heq⟩ := read_loop_clean_prefix pre (line :: rest) [] hpre
    rw [heq, read_loop_bad_line line rest acc2 hne hlen h10]
  · intro line sc it h10 h6 h7
    exact read_single_line_parses line sc it h10 h6 h7

/-- C8 witness: a blank line followed by a 3-field line aborts with the
descriptive error and the three `Item i` logs; a well-formed 10-field line
with subcase field `"1"` and iteration field `"1"` parses to integers 1. -/
theorem c8_witness :
    read_screenshot_definitions (["\n"] ++ "a,b,c" :: []) =
      (.error (.exception "There should be 10 items in each input line, separated by commas. Please check the input above and make sure not to use commas in the names."),
       Eff.log "There should be 10 items in each input line, separated by commas. Please check the input and make sure not to use commas in the names."
         :: itemLogs (pySplit "a,b,c" ',')) ∧
    read_screenshot_definitions ["f,a,t,g,c,s,1,1,Stress,Scalar\n"] =
      (.ok (some [⟨⟨"s", 1, 1, "Stress", ""⟩, "f", "a", "t", "g", "Scalar", "c"⟩]), []) :=
  ⟨(c8_read_screenshot_definitions_strict).1 ["\n"] "a,b,c" [] (by decide) (by decide)
     (by decide) (by decide),
   (c8_read_screenshot_definitions_strict).2 "f,a,t,g,c,s,1,1,Stress,Scalar\n" 1 1
     (by decide) (by decide) (by decide)⟩

/-- Either `c` does not occur and `rfind` is `-1`, or it yields a valid index. -/
theorem rfindIdx_cases (c : Char) : ∀ l : List Char,
    (rfindIdx c l = -1 ∧ c ∉ l) ∨
      (0 ≤ rfindIdx c l ∧ rfindIdx c l < l.length ∧ c ∈ l) := by
  intro l
  induction l with
  | nil => exact Or.inl ⟨rfl, by simp⟩
  | cons x xs ih =>
    simp only [rfindIdx, List.length_cons, List.mem_cons]
    rcases ih with ⟨h, hmem⟩ | ⟨h0, hlt, hmem⟩
    · rw [h]
      by_cases hx : x = c
      · rw [if_neg (by omega), if_pos hx]
        right
        refine ⟨le_refl 0, by push_cast; omega, Or.inl hx.symm⟩
      · rw [if_neg (by omega), if_neg hx]
        exact Or.inl ⟨rfl, by
          push_neg
          exact ⟨fun hh => hx hh.symm, hmem⟩⟩
    · rw [if_pos h0]
      right
      refine ⟨by omega, by push_cast; omega, Or.inr hmem⟩

/-- `rfind` of an absent character is `-1`. -/
theorem rfindIdx_eq_neg_one_of_not_mem {c : Char} {l : List Char} (h : c ∉ l) :
    rfindIdx c l = -1 := by
  rcases rfindIdx_cases c l with ⟨h1, _⟩ | ⟨_, _, hmem⟩
  · exact h1
  · exact absurd hmem h

/-- When `c` occurs in `ys`, its last occurrence in `xs ++ ys` is in `ys`. -/
theorem rfindIdx_append_right (c : Char) (ys : List Char) (h : 0 ≤ rfindIdx c ys) :
    ∀ xs : List Char, rfindIdx c (xs ++ ys) = xs.length + rfindIdx c ys := by
  intro xs
  induction xs with
  | nil => simp
  | cons x xs ih =>
    simp only [List.cons_append, rfindIdx, List.append_eq, List.length_cons] at ih ⊢
    rw [ih, if_pos (by omega)]
    push_cast
    ring

/-- When `c` does not occur in `ys`, `rfind` over `xs ++ ys` looks in `xs`. -/
theorem rfindIdx_append_left (c : Char) (ys : List Char) (h : c ∉ ys) :
    ∀ xs : List Char, rfindIdx c (xs ++ ys) = rfindIdx c xs := by
  intro xs
  induction xs with
  | nil => simpa using rfindIdx_eq_neg_one_of_not_mem h
  | cons x xs ih =>
    simp only [List.cons_append, rfindIdx, List.append_eq] at ih ⊢
    rw [ih]

/-- `dirname` is empty exactly when the path has no separator. -/
theorem dirname_eq_empty_iff (p : String) : dirname p = "" ↔ '/' ∉ p.data := by
  simp only [dirname]
  rcases rfindIdx_cases '/' p.data with ⟨h, hmem⟩ | ⟨h0, hlt, hmem⟩
  · rw [h]
    simp only [show ((-1 : Int) + 1).toNat = 0 from rfl, List.take_zero]
    simp [hmem]
  · have hi : 1 ≤ (rfindIdx '/' p.data + 1).toNat := by omega
    have hcs : p.data ≠ [] := by
      intro hnil
      rw [hnil] at hmem
      exact absurd hmem (by simp)
    have hhead : p.data.take (rfindIdx '/' p.data + 1).toNat ≠ [] := by
      have : (p.data.take (rfindIdx '/' p.data + 1).toNat).length =
          min (rfindIdx '/' p.data + 1).toNat p.data.length := List.length_take _ _
      intro hnil
      rw [hnil] at this
      simp only [List.length_nil] at this
      have hlen : 0 < p.data.length := List.length_pos.mpr hcs
      omega
    constructor
    · intro heq
      exfalso
      by_cases hall : (p.data.take (rfindIdx '/' p.data + 1).toNat).all (· = '/')
      · rw [if_neg (by simp [hall])] at heq
        exact hhead (by simpa [String.ext_iff] using heq)
      · rw [if_pos ⟨hhead, by simpa using hall⟩] at heq
        have hex : ∃ x ∈ p.data.take (rfindIdx '/' p.data + 1).toNat, ¬ x = '/' := by
          by_contra hcon
          push_neg at hcon
          exact hall (List.all_eq_true.mpr (fun x hx => by simpa using hcon x hx))
        obtain ⟨x, hxmem, hxne⟩ := hex
        have : ((p.data.take (rfindIdx '/' p.data + 1).toNat).reverse.dropWhile (· = '/')).reverse = [] := by
          simpa [String.ext_iff] using heq
        have hdw : (p.data.take (rfindIdx '/' p.data + 1).toNat).reverse.dropWhile (· = '/') = [] := by
          simpa using congrArg List.reverse this
        have := List.dropWhile_eq_nil_iff.mp hdw x (by simpa using hxmem)
        exact hxne (by simpa using this)
    · intro hn
      exact absurd hmem hn

/-- `splitext` of `<prefix><name>.unv`, where the name is separator-free and
has a non-dot character, returns extension `.unv`. -/
theorem splitext_prefixed_unv (dcs nc : List Char)
    (hslash : '/' ∉ nc) (k : Nat) (hk : k < nc.length) (hkd : nc.getD k '.' ≠ '.') :
    (splitext ⟨dcs ++ (nc ++ ".unv".data)⟩).2 = ".unv" := by
  have hu : rfindIdx '.' ".unv".data = 0 := rfl
  have h1 : rfindIdx '.' (nc ++ ".unv".data) = nc.length + rfindIdx '.' ".unv".data :=
    rfindIdx_append_right '.' _ (by rw [hu]) nc
  rw [hu, add_zero] at h1
  have hdot : rfindIdx '.' (dcs ++ (nc ++ ".unv".data)) =
      dcs.length + (nc.length : Int) := by
    rw [rfindIdx_append_right '.' _ (by rw [h1]; omega) dcs, h1]
  have hnu : '/' ∉ nc ++ ".unv".data := by
    intro hmem
    rcases List.mem_append.mp hmem with h | h
    · exact hslash h
    · simp at h
  have hsep : rfindIdx '/' (dcs ++ (nc ++ ".unv".data)) = rfindIdx '/' dcs :=
    rfindIdx_append_left '/' _ hnu dcs
  have hsep_lt : rfindIdx '/' dcs < (dcs.length : Int) := by
    rcases rfindIdx_cases '/' dcs with ⟨h, _⟩ | ⟨_, hlt, _⟩
    · rw [h]; omega
    · exact hlt
  have hlen : (dcs ++ (nc ++ ".unv".data)).length = dcs.length + nc.length + 4 := by
    simp [List.length_append]
    omega
  simp only [splitext]
  rw [if_pos (by rw [hsep, hdot]; omega)]
  have hany : ((List.range (dcs ++ (nc ++ ".unv".data)).length).any
      (fun j => decide (rfindIdx '/' ((⟨dcs ++ (nc ++ ".unv".data)⟩ : String).data) < (j : Int)) &&
        decide ((j : Int) < rfindIdx '.' ((⟨dcs ++ (nc ++ ".unv".data)⟩ : String).data)) &&
        decide (((⟨dcs ++ (nc ++ ".unv".data)⟩ : String).data).getD j '.' ≠ '.'))) = true := by
    rw [List.any_eq_true]
    refine ⟨dcs.length + k, List.mem_range.mpr (by rw [hlen]; omega), ?_⟩
    simp only [Bool.and_eq_true, decide_eq_true_eq]
    refine ⟨⟨?_, ?_⟩, ?_⟩
    · rw [hsep]
      push_cast
      omega
    · rw [hdot]
      push_cast
      omega
    · rw [List.getD_append_right dcs (nc ++ ".unv".data) '.' _ (by omega)]
      rw [show dcs.length + k - dcs.length = k from by omega]
      rw [List.getD_append nc ".unv".data '.' k hk]
      exact hkd
  rw [if_pos hany]
  simp only [hdot]
  rw [show ((dcs.length : Int) + (nc.length : Int)).toNat = dcs.length + nc.length from by omega]
  rw [show dcs ++ (nc ++ ".unv".data) = (dcs ++ nc) ++ ".unv".data from by rw [List.append_assoc]]
  rw [List.drop_left' (by simp [List.length_append])]

/-- Joining onto an empty directory leaves a relative path unchanged. -/
theorem joinPath_empty_left (b : String) (hb : b.data.head? ≠ some '/') : joinPath "" b = b := by
  simp only [joinPath]
  rw [if_neg hb]
  simp [String.empty_append]

/-- C9 counterexample: the file name `"."` has no extension (by `splitext`'s
own reckoning) and no directory component, yet `create_full_path` is not
idempotent on its output: the first call yields `<dir>/..unv`, whose
basename's leading dots make `splitext` report no extension again, so the
second call appends `.unv` once more. -/
theorem c9_counterexample_dot_name :
    (splitext ".").2 = "" ∧ dirname "." = "" ∧
    create_full_path envTools "." ".unv" = (.ok "/home/user/..unv", []) ∧
    create_full_path envTools "/home/user/..unv" ".unv" = (.ok "/home/user/..unv.unv", []) ∧
    ("/home/user/..unv.unv" : String) ≠ "/home/user/..unv" := by
  decide

/-- C9 (amended): for a file name with no extension, no directory component,
and at least one character other than `'.'`, `create_full_path` returns the
open document's directory joined with the name plus the default extension,
and applying it again to that result with the same default extension returns
it unchanged. -/
theorem c9_create_full_path_idempotent (env : ToolsEnv) (bp : BasePartData) (name : String)
    (henv : env.baseWork = some bp)
    (hext : (splitext name).2 = "")
    (hdir : dirname name = "")
    (hnotdot : name.data.any (· ≠ '.') = true) :
    create_full_path env name ".unv" =
      (.ok (joinPath (dirname bp.fullPath) (name ++ ".unv")), []) ∧
    create_full_path env (joinPath (dirname bp.fullPath) (name ++ ".unv")) ".unv" =
      (.ok (joinPath (dirname bp.fullPath) (name ++ ".unv")), []) := by
  have hslash : '/' ∉ name.data := (dirname_eq_empty_iff name).mp hdir
  have hnd : ∃ k, k < name.data.length ∧ name.data.getD k '.' ≠ '.' := by
    obtain ⟨x, hxmem, hxne⟩ := List.any_eq_true.mp hnotdot
    obtain ⟨i, hi, hix⟩ := List.getElem_of_mem hxmem
    exact ⟨i, hi, by rw [List.getD_eq_getElem _ _ hi, hix]; simpa using hxne⟩
  obtain ⟨k, hk, hkd⟩ := hnd
  have hbdata : (name ++ ".unv").data = name.data ++ ".unv".data := rfl
  have hbslash : '/' ∉ (name ++ ".unv").data := by
    rw [hbdata]
    intro hmem
    rcases List.mem_append.mp hmem with h | h
    · exact hslash h
    · simp at h
  have hdirb : dirname (name ++ ".unv") = "" := (dirname_eq_empty_iff _).mpr hbslash
  have hbhead : (name ++ ".unv").data.head? ≠ some '/' := by
    rw [hbdata]
    cases hnc : name.data with
    | nil => simp [hnc]
    | cons x xs =>
      simp only [List.cons_append, List.head?_cons, ne_eq, Option.some.injEq]
      intro hx
      exact hslash (by rw [hnc, hx]; exact List.mem_cons_self _ _)
  have call1 : create_full_path env name ".unv" =
      (.ok (joinPath (dirname bp.fullPath) (name ++ ".unv")), []) := by
    simp [create_full_path, hext, hdirb, henv]
  refine ⟨call1, ?_⟩
  by_cases hd : dirname bp.fullPath = ""
  · have hr : joinPath (dirname bp.fullPath) (name ++ ".unv") = name ++ ".unv" := by
      rw [hd]
      exact joinPath_empty_left _ hbhead
    rw [hr]
    have hext2 : (splitext (name ++ ".unv")).2 = ".unv" := by
      have h := splitext_prefixed_unv [] name.data hslash k hk hkd
      rw [List.nil_append] at h
      exact h
    simp [create_full_path, hext2, hdirb, henv, hd, joinPath_empty_left _ hbhead]
  · by_cases hl : (dirname bp.fullPath).data.getLast? = some '/'
    · have hjoin : joinPath (dirname bp.fullPath) (name ++ ".unv") =
          dirname bp.fullPath ++ (name ++ ".unv") := by
        simp only [joinPath]
        rw [if_neg hbhead, if_pos (Or.inr hl)]
      rw [hjoin]
      have hext2 : (splitext (dirname bp.fullPath ++ (name ++ ".unv"))).2 = ".unv" :=
        splitext_prefixed_unv (dirname bp.fullPath).data name.data hslash k hk hkd
      have hrslash : '/' ∈ (dirname bp.fullPath ++ (name ++ ".unv")).data :=
        List.mem_append.mpr (Or.inl (List.mem_of_getLast?_eq_some hl))
      have hdirr : dirname (dirname bp.fullPath ++ (name ++ ".unv")) ≠ "" := by
        intro h
        exact (dirname_eq_empty_iff _).mp h hrslash
      simp [create_full_path, hext2, hdirr]
    · have hjoin : joinPath (dirname bp.fullPath) (name ++ ".unv") =
          dirname bp.fullPath ++ "/" ++ (name ++ ".unv") := by
        simp only [joinPath]
        rw [if_neg hbhead, if_neg (not_or.mpr ⟨hd, hl⟩)]
      rw [hjoin]
      have hdata2 : (dirname bp.fullPath ++ "/" ++ (name ++ ".unv")).data =
          ((dirname bp.fullPath).data ++ ['/']) ++ (name.data ++ ".unv".data) := rfl
      have hext2 : (splitext (dirname bp.fullPath ++ "/" ++ (name ++ ".unv"))).2 = ".unv" :=
        splitext_prefixed_unv ((dirname bp.fullPath).data ++ ['/']) name.data hslash k hk hkd
      have hrslash : '/' ∈ (dirname bp.fullPath ++ "/" ++ (name ++ ".unv")).data := by
        rw [hdata2]
        exact List.mem_append.mpr (Or.inl (List.mem_append.mpr (Or.inr (by simp))))
      have hdirr : dirname (dirname bp.fullPath ++ "/" ++ (name ++ ".unv")) ≠ "" := by
        intro h
        exact (dirname_eq_empty_iff _).mp h hrslash
      simp [create_full_path, hext2, hdirr]

/-- C9 witness: with the open document `/home/user/model.sim`, the name
`"results"` (no extension, no directory, not all dots) normalizes to
`/home/user/results.unv`, and a second application leaves that unchanged. -/
theorem c9_witness :
    envTools.baseWork = some ⟨"/home/user/model.sim"⟩ ∧
    (splitext "results").2 = "" ∧ dirname "results" = "" ∧
    "results".data.any (· ≠ '.') = true ∧
    create_full_path envTools "results" ".unv" =
      (.ok (joinPath (dirname ("/home/user/model.sim" : String)) ("results" ++ ".unv")), []) ∧
    create_full_path envTools
        (joinPath (dirname ("/home/user/model.sim" : String)) ("results" ++ ".unv")) ".unv" =
      (.ok (joinPath (dirname ("/home/user/model.sim" : String)) ("results" ++ ".unv")), []) :=
  ⟨rfl, rfl, rfl, by decide,
   (c9_create_full_path_idempotent envTools ⟨"/home/user/model.sim"⟩ "results" rfl rfl rfl
     (by decide)).1,
   (c9_create_full_path_idempotent envTools ⟨"/home/user/model.sim"⟩ "results" rfl rfl rfl
     (by decide)).2⟩

end Nxopentse
